import Mathlib

/-!
Verification of the template-generator core of the repository
(`src/pages/templateGenerator.js`): the clause registries, the identifier
sanitizer, the feature-file and scaffold-file composers, and the export
function.  JavaScript strings are modelled as lists of characters; the
mutable globals of the script are modelled as an explicit state record
threaded through the functions.
-/

namespace TemplateGenerator

/-- JavaScript strings are modelled as lists of characters. -/
abbrev JStr := List Char

/-- The character list of a Lean string literal (used to write down the
string constants appearing in the source). -/
def str (s : String) : JStr := s.data

/-- A JavaScript `Map` whose keys and values are strings, modelled as an
association list; `Map.get` returns `undefined` (here `none`) on a missing
key. -/
def mapGet (m : List (JStr × JStr)) (k : JStr) : Option JStr :=
  m.lookup k

/-- JavaScript string concatenation `s + m.get(k)`: when the key is absent,
`Map.get` yields `undefined`, which string concatenation renders as the
literal text `undefined`. -/
def jsGetStr (m : List (JStr × JStr)) (k : JStr) : JStr :=
  (mapGet m k).getD (str "undefined")

/-- JavaScript `String.replaceAll` with a one-character search string:
every occurrence of the character is replaced by `rep`.  The generator only
ever calls `replaceAll` with the one-character search strings space, comma,
colon and semicolon (templateGenerator.js lines 138-142). -/
def jsReplaceAllChar (pat : Char) (rep : JStr) : JStr → JStr
  | [] => []
  | c :: cs => (if c = pat then rep else [c]) ++ jsReplaceAllChar pat rep cs

/-- JavaScript `String.replace` with a one-character search string: only
the first occurrence of the character is replaced by `rep` (used at line
145 of templateGenerator.js: `whenString.replace(" ","_")`). -/
def jsReplaceFirstChar (pat : Char) (rep : JStr) : JStr → JStr
  | [] => []
  | c :: cs => if c = pat then rep ++ cs else c :: jsReplaceFirstChar pat rep cs

/-- `generalMapping` (templateGenerator.js lines 10-31): the fixed scaffold
preamble, keyed by `"generic"`. -/
def generalMapping : List (JStr × JStr) :=
  [(str "generic", str "import pytest_bdd\nfrom conftest import O3_BASE_URL\nimport string\nimport random\nimport time\nimport re\nimport pytest\nfrom pytest_bdd import scenarios, given, when, then, parsers\nfrom playwright.sync_api import Page, expect\nimport sys\nimport os\nsys.path.insert(0, os.path.join(os.path.dirname(__file__), '..', '..', 'assets'))\nfrom sharedBDDFunctions import *\n\nO3_LOGIN_URL = f'{O3_BASE_URL}/login'\nO3_WELCOME_URL = f'{O3_BASE_URL}/login/location'\nO3_HOMEPAGE_URL = f'{O3_BASE_URL}/home/service-queues#'\n\n")]

/-- `givenMapping` (templateGenerator.js lines 32-50): given-clause id to
generated step-definition code. -/
def givenMapping : List (JStr × JStr) :=
  [(str "givenLoginPageDisplayed", str "@given(\"the OpenMRS 3 login page is displayed\")\ndef navigate_to_login(page):\n    return navigateToLogin(page)\n"),
   (str "givenLoggedInto", str "@given(\"logged into OpenMRS O3\")\ndef user_login(page):\n    return login(page)\n"),
   (str "givenTestPatientCreated", str "@given(\"a test patient has been created\")\ndef navigate_to_test_patient(page):\n    return navigateToTestPatient(page)\n"),
   (str "givenEditPatientPageDisplayed", str "@given(\"the OpenMRS 3 edit patient page is displayed\")\ndef verify_test_patient(page):\n    return verifyTestPatientExists(page)\n")]

/-- `thenMapping` (templateGenerator.js lines 51-56): then-clause id to
generated step-definition code. -/
def thenMapping : List (JStr × JStr) :=
  [(str "reportCVSS", str "@then(\"Calculate CVSS score\")\ndef calculate_cvss_score():\n    return calculateCVSSScore()\n\n")]

/-- `givenThenToFeatureFileMapping` (templateGenerator.js lines 57-64):
clause id to the human phrase used in the feature file. -/
def givenThenToFeatureFileMapping : List (JStr × JStr) :=
  [(str "givenLoginPageDisplayed", str "the OpenMRS 3 login page is displayed"),
   (str "givenLoggedInto", str "logged into OpenMRS O3"),
   (str "givenTestPatientCreated", str "a test patient has been created"),
   (str "givenEditPatientPageDisplayed", str "the OpenMRS 3 edit patient page is displayed"),
   (str "reportCVSS", str "Calculate CVSS score")]

/-- The `whenString` computation of `generateTemplateFile`
(templateGenerator.js lines 138-142), the identifier sanitizer of the
spec: replace every space by an underscore, delete every comma, colon and
semicolon, then replace every space by an underscore once more. -/
def sanitize (testing : JStr) : JStr :=
  let w := jsReplaceAllChar ' ' (str "_") testing
  let w := jsReplaceAllChar ',' (str "") w
  let w := jsReplaceAllChar ':' (str "") w
  let w := jsReplaceAllChar ';' (str "") w
  jsReplaceAllChar ' ' (str "_") w

/-- The feature-file text built by `generateFeatureFile`
(templateGenerator.js lines 77-91), as a function of the trigger phrase
(`when`) and the selected given/then ids. -/
def featureText (when : JStr) (givenStmts thenStmts : List JStr) : JStr :=
  let s := str "Feature:" ++ when ++ str "\n"
  let s := s ++ str "  A description for your feature file\n  Background:\n"
  let s := givenStmts.foldl
    (fun acc g => acc ++ (str "    Given " ++ jsGetStr givenThenToFeatureFileMapping g ++ str "\n")) s
  let s := s ++ str "\n  Scenario:" ++ when ++ str "\n"
  let s := s ++ str "    When " ++ when
  thenStmts.foldl
    (fun acc t => acc ++ (str "\n    Then " ++ jsGetStr givenThenToFeatureFileMapping t ++ str "\n")) s

/-- The scaffold text built by `generateTemplateFile`
(templateGenerator.js lines 107-155), as a function of the selected ids
and the form fields it reads.  The `addCVSSMetrics` flag of lines 121-130
is computed but its `if` body is empty (`//todo`), so it has no effect on
the output. -/
def scaffoldText (givenStmts thenStmts : List JStr)
    (featureFileName location testing : JStr) : JStr :=
  let s := str "" ++ jsGetStr generalMapping (str "generic")
  let _addCVSSMetrics :=
    thenStmts.foldl (fun b t => if t = str "reportCVSS" then true else b) false
  let s := givenStmts.foldl
    (fun acc g => acc ++ (jsGetStr givenMapping g ++ str "\n")) s
  let whenString := sanitize testing
  let s := s ++ str "@pytest_bdd.scenario('tests/" ++ location ++ str "/" ++
    featureFileName ++ str ".feature','" ++ testing ++ str "',features_base_dir='')\n"
  let s := s ++ str "@when('" ++ testing ++
    str "')\ndef test_" ++ jsReplaceFirstChar ' ' (str "_") whenString ++
    str "(page:Page):\n    #your test code here\n    return\n"
  thenStmts.foldl (fun acc t => acc ++ (jsGetStr thenMapping t ++ str "\n")) s

/-- The mutable globals of templateGenerator.js (lines 5-9). -/
structure GenState where
  featureFileString : JStr
  testScaffoldStringSave : JStr
  featureFilepath : JStr
  testScaffoldSFilePath : JStr
  fileStringsInitialized : Bool
deriving DecidableEq

/-- The globals as initialized at script load (templateGenerator.js
lines 5-9). -/
def initialState : GenState :=
  { featureFileString := str ""
    testScaffoldStringSave := str ""
    featureFilepath := str ""
    testScaffoldSFilePath := str ""
    fileStringsInitialized := false }

/-- The form fields of the host page read by `generateTemplateFile`:
the four given-clause checkboxes, the one then-clause checkbox, and the
four text inputs. -/
structure DomInputs where
  givenLoginPageDisplayed : Bool
  givenLoggedInto : Bool
  givenTestPatientCreated : Bool
  givenEditPatientPageDisplayed : Bool
  reportCVSS : Bool
  testFilenameSTMT : JStr
  featureFilenameSTMT : JStr
  locationSTMT : JStr
  testSTMT : JStr
deriving DecidableEq

/-- `generateFeatureFile` (templateGenerator.js lines 77-91) as a state
transformer: stores the filename in `featureFilepath` and the composed
text in `featureFileString`.  (The write into the `#featureFile` DOM
element is host-environment output, outside the composition core.) -/
def generateFeatureFile (filename when : JStr) (givenStmts thenStmts : List JStr)
    (s : GenState) : GenState :=
  { s with
    featureFilepath := filename
    featureFileString := featureText when givenStmts thenStmts }

/-- The given-clause selection assembled from the checkboxes
(templateGenerator.js lines 93-98), in the fixed order the code pushes
them. -/
def selectedGivens (d : DomInputs) : List JStr :=
  (if d.givenLoginPageDisplayed then [str "givenLoginPageDisplayed"] else []) ++
  (if d.givenLoggedInto then [str "givenLoggedInto"] else []) ++
  (if d.givenTestPatientCreated then [str "givenTestPatientCreated"] else []) ++
  (if d.givenEditPatientPageDisplayed then [str "givenEditPatientPageDisplayed"] else [])

/-- The then-clause selection assembled from the checkboxes
(templateGenerator.js lines 103-104). -/
def selectedThens (d : DomInputs) : List JStr :=
  if d.reportCVSS then [str "reportCVSS"] else []

/-- `generateTemplateFile` (templateGenerator.js lines 92-160) as a state
transformer: reads the form, composes the scaffold text, stores it and
the scaffold file path, composes and stores the feature file via
`generateFeatureFile`, and sets `fileStringsInitialized`. -/
def generateTemplateFile (d : DomInputs) (s : GenState) : GenState :=
  let givenStmts := selectedGivens d
  let thenStmts := selectedThens d
  let filename := d.testFilenameSTMT
  let featureFileName := d.featureFilenameSTMT
  let s := { s with testScaffoldSFilePath := filename }
  let scaff := scaffoldText givenStmts thenStmts featureFileName d.locationSTMT d.testSTMT
  let s := { s with testScaffoldStringSave := scaff }
  let s := generateFeatureFile featureFileName d.testSTMT givenStmts thenStmts s
  { s with fileStringsInitialized := true }

/-- `downloadFiles` (templateGenerator.js lines 162-167): the list of
`(content, filename)` pairs handed to `downloadStringAsFile`, in call
order; the guard makes it empty when `fileStringsInitialized` is unset. -/
def downloadFiles (s : GenState) : List (JStr × JStr) :=
  if s.fileStringsInitialized then
    [(s.testScaffoldStringSave, str "test_" ++ s.testScaffoldSFilePath ++ str ".py"),
     (s.featureFileString, s.featureFilepath ++ str ".feature")]
  else []

/-- The failure kinds named by the specification.  None of them occurs in
the source: the functions below record that each call completes normally. -/
inductive GenError where
  | unknownClauseError
  | emptyTriggerError
  | exportBeforeGenerateError
deriving DecidableEq

/-- Result of a call to the feature composer.  The JavaScript function
contains no throw path and `Map.get` never throws, so every call completes
normally; the `Except` type makes the specification's failure modes
statable. -/
def featureTextRun (when : JStr) (givenStmts thenStmts : List JStr) :
    Except GenError JStr :=
  Except.ok (featureText when givenStmts thenStmts)

/-- Result of a call to the scaffold composer; as with `featureTextRun`,
the source contains no throw path, so every call completes normally. -/
def scaffoldTextRun (givenStmts thenStmts : List JStr)
    (featureFileName location testing : JStr) : Except GenError JStr :=
  Except.ok (scaffoldText givenStmts thenStmts featureFileName location testing)

/-- Result of a call to `generateTemplateFile`; the source contains no
throw path and no validation of the form fields, so every call completes
normally. -/
def generateTemplateFileRun (d : DomInputs) (s : GenState) :
    Except GenError GenState :=
  Except.ok (generateTemplateFile d s)

/-- Result of a call to `downloadFiles`; the guard at line 163 makes the
uninitialized case a silent no-op, not an error. -/
def downloadFilesRun (s : GenState) : Except GenError (List (JStr × JStr)) :=
  Except.ok (downloadFiles s)

/-! Helper lemmas about the embedded operations. -/

/-- A string-accumulating `for` loop is the concatenation of the pieces,
in list order. -/
theorem foldl_append_eq {α : Type} (f : α → JStr) :
    ∀ (l : List α) (init : JStr),
      l.foldl (fun acc x => acc ++ f x) init = init ++ (l.map f).flatten
  | [], init => by simp
  | x :: xs, init => by
    simp [List.foldl_cons, foldl_append_eq f xs, List.append_assoc]

/-- `jsReplaceAllChar` acts independently on each character. -/
theorem jsReplaceAllChar_eq_flatMap (p : Char) (r : JStr) :
    ∀ s : JStr, jsReplaceAllChar p r s = s.flatMap (fun c => if c = p then r else [c])
  | [] => rfl
  | c :: cs => by
    simp [jsReplaceAllChar, jsReplaceAllChar_eq_flatMap p r cs, List.flatMap_cons]

/-- Character-level description of `sanitize`: a space becomes an
underscore, a comma, colon or semicolon is deleted, and every other
character passes through unchanged. -/
theorem sanitize_eq_filterMap (s : JStr) :
    sanitize s = s.filterMap
      (fun c => if c = ' ' then some '_'
        else if c = ',' ∨ c = ':' ∨ c = ';' then none else some c) := by
  have e1 : str "_" = ['_'] := rfl
  have e0 : str "" = ([] : List Char) := rfl
  induction s with
  | nil => rfl
  | cons c cs ih =>
    simp only [sanitize, jsReplaceAllChar_eq_flatMap, List.flatMap_cons,
      List.flatMap_append, List.filterMap_cons, e1, e0] at *
    by_cases h1 : c = ' '
    · subst h1; simpa +decide using ih
    · by_cases h2 : c = ','
      · subst h2; simpa +decide using ih
      · by_cases h3 : c = ':'
        · subst h3; simpa +decide using ih
        · by_cases h4 : c = ';'
          · subst h4; simpa +decide using ih
          · simp [h1, h2, h3, h4, ih]

/-- The feature text is the header, one `Given` line per selected given id
in selection order, the scenario header and `When` line, and one `Then`
line per selected then id in selection order. -/
theorem featureText_decomp (w : JStr) (gs ts : List JStr) :
    featureText w gs ts =
      str "Feature:" ++ w ++ str "\n" ++
      str "  A description for your feature file\n  Background:\n" ++
      (gs.map (fun g => str "    Given " ++ jsGetStr givenThenToFeatureFileMapping g ++ str "\n")).flatten ++
      (str "\n  Scenario:" ++ w ++ str "\n") ++
      (str "    When " ++ w) ++
      (ts.map (fun t => str "\n    Then " ++ jsGetStr givenThenToFeatureFileMapping t ++ str "\n")).flatten := by
  simp [featureText, foldl_append_eq, List.append_assoc]

/-- The scaffold text is the fixed preamble, one code block per selected
given id in selection order, the scenario marker and generated `when`
step, and one code block per selected then id in selection order. -/
theorem scaffoldText_decomp (gs ts : List JStr) (fname loc testing : JStr) :
    scaffoldText gs ts fname loc testing =
      jsGetStr generalMapping (str "generic") ++
      (gs.map (fun g => jsGetStr givenMapping g ++ str "\n")).flatten ++
      (str "@pytest_bdd.scenario('tests/" ++ loc ++ str "/" ++ fname ++
        str ".feature','" ++ testing ++ str "',features_base_dir='')\n") ++
      (str "@when('" ++ testing ++ str "')\ndef test_" ++
        jsReplaceFirstChar ' ' (str "_") (sanitize testing) ++
        str "(page:Page):\n    #your test code here\n    return\n") ++
      (ts.map (fun t => jsGetStr thenMapping t ++ str "\n")).flatten := by
  have e0 : str "" = ([] : List Char) := rfl
  simp [scaffoldText, foldl_append_eq, List.append_assoc, e0]

/-- The feature text is never the empty string. -/
theorem featureText_ne_nil (w : JStr) (gs ts : List JStr) : featureText w gs ts ≠ [] := by
  rw [featureText_decomp]
  intro h
  have hl := congrArg List.length h
  simp only [List.length_append, List.length_nil] at hl
  have h8 : (str "Feature:").length = 8 := by decide
  omega

set_option maxRecDepth 4000 in
/-- The scaffold text is never the empty string. -/
theorem scaffoldText_ne_nil (gs ts : List JStr) (fname loc testing : JStr) :
    scaffoldText gs ts fname loc testing ≠ [] := by
  rw [scaffoldText_decomp]
  intro h
  have hl := congrArg List.length h
  simp only [List.length_append, List.length_nil] at hl
  have h8 : (jsGetStr generalMapping (str "generic")).length = 502 := by decide
  omega

/-- Mapping a `pre ++ lookup ++ post` line over ids equals mapping the
line over the looked-up values, when every id resolves. -/
theorem map_line_forall₂ (m : List (JStr × JStr)) (pre post : JStr) :
    ∀ {l l' : List JStr}, List.Forall₂ (fun g p => mapGet m g = some p) l l' →
      l.map (fun g => pre ++ jsGetStr m g ++ post) = l'.map (fun p => pre ++ p ++ post)
  | _, _, List.Forall₂.nil => rfl
  | _, _, List.Forall₂.cons h htail => by
    rw [List.map_cons, List.map_cons, map_line_forall₂ m pre post htail]
    simp only [jsGetStr, h, Option.getD_some]

/-- Mapping a `lookup ++ post` block over ids equals mapping the block
over the looked-up values, when every id resolves. -/
theorem map_block_forall₂ (m : List (JStr × JStr)) (post : JStr) :
    ∀ {l l' : List JStr}, List.Forall₂ (fun g p => mapGet m g = some p) l l' →
      l.map (fun g => jsGetStr m g ++ post) = l'.map (fun p => p ++ post)
  | _, _, List.Forall₂.nil => rfl
  | _, _, List.Forall₂.cons h htail => by
    rw [List.map_cons, List.map_cons, map_block_forall₂ m post htail]
    simp only [jsGetStr, h, Option.getD_some]

/-- C4 counterexample: `sanitize` deletes a comma instead of replacing it
with an underscore, and leaves a tab character unchanged. -/
theorem sanitize_punctuation_counterexample :
    sanitize (str "a,b") = str "ab" ∧ str "ab" ≠ str "a_b" ∧
    sanitize (str "a\tb") = str "a\tb" ∧ str "a\tb" ≠ str "a_b" := by
  decide

/-- C4 (amended): `sanitize` replaces each space with an underscore,
deletes each comma, colon and semicolon, and passes every other character
(including non-space whitespace) through unchanged. -/
theorem sanitize_charwise_behavior (s : JStr) :
    sanitize s = s.filterMap
      (fun c => if c = ' ' then some '_'
        else if c = ',' ∨ c = ':' ∨ c = ';' then none else some c) :=
  sanitize_eq_filterMap s

/-- C5: `sanitize` is deterministic, and its output contains no space,
comma, colon or semicolon. -/
theorem sanitize_deterministic_and_output_clean :
    (∀ s t : JStr, s = t → sanitize s = sanitize t) ∧
    ∀ s : JStr,
      (sanitize s).all (fun c => !(c == ' ' || c == ',' || c == ':' || c == ';')) = true := by
  refine ⟨fun s t h => by rw [h], fun s => ?_⟩
  rw [sanitize_eq_filterMap, List.all_eq_true]
  intro c hc
  rw [List.mem_filterMap] at hc
  obtain ⟨a, _, hfa⟩ := hc
  by_cases h1 : a = ' '
  · simp [h1] at hfa
    subst hfa
    decide
  · by_cases h2 : a = ',' ∨ a = ':' ∨ a = ';'
    · simp [h1, h2] at hfa
    · simp [h1, h2] at hfa
      subst hfa
      push_neg at h2
      simp [h1, h2.1, h2.2.1, h2.2.2]

/-- C5 witness: the theorem instantiated at a concrete input. -/
theorem sanitize_deterministic_and_output_clean_witness :
    sanitize (str "a b:c") = sanitize (str "a b:c") ∧
    (sanitize (str "a b:c")).all
      (fun c => !(c == ' ' || c == ',' || c == ':' || c == ';')) = true :=
  ⟨sanitize_deterministic_and_output_clean.1 (str "a b:c") (str "a b:c") rfl,
   sanitize_deterministic_and_output_clean.2 (str "a b:c")⟩

/-- C6 counterexample: the non-empty input `","` sanitizes to the empty
string. -/
theorem sanitize_empty_output_counterexample :
    sanitize (str ",") = [] ∧ str "," ≠ [] := by
  decide

/-- C6 (amended): `sanitize` never fails, but it returns the empty string
for non-empty inputs made only of commas, colons and semicolons; the
output is non-empty whenever some input character is none of those
three. -/
theorem sanitize_nonempty_on_kept_char (s : JStr)
    (h : ∃ c ∈ s, c ≠ ',' ∧ c ≠ ':' ∧ c ≠ ';') : sanitize s ≠ [] := by
  rw [sanitize_eq_filterMap]
  intro hnil
  rw [List.filterMap_eq_nil_iff] at hnil
  obtain ⟨c, hc, h1, h2, h3⟩ := h
  have hfc := hnil c hc
  by_cases hsp : c = ' ' <;> simp [hsp, h1, h2, h3] at hfc

/-- C6 witness: the theorem instantiated at a concrete input. -/
theorem sanitize_nonempty_on_kept_char_witness :
    (∃ c ∈ str ",a", c ≠ ',' ∧ c ≠ ':' ∧ c ≠ ';') ∧ sanitize (str ",a") ≠ [] :=
  ⟨by decide, sanitize_nonempty_on_kept_char (str ",a") (by decide)⟩

/-- C7 counterexample: calling `downloadFiles` on the load-time state
(no generation yet) completes normally with no files handed off; it does
not fail with `exportBeforeGenerateError`. -/
theorem export_before_generate_counterexample :
    downloadFilesRun initialState ≠ Except.error GenError.exportBeforeGenerateError ∧
    downloadFilesRun initialState = Except.ok [] ∧
    downloadFiles initialState = [] :=
  ⟨by simp [downloadFilesRun], rfl, rfl⟩

/-- C7 (amended): when the `fileStringsInitialized` flag is unset,
`downloadFiles` hands off no file, and the call is a silent no-op rather
than a failure. -/
theorem export_before_generate_silent_noop (s : GenState)
    (h : s.fileStringsInitialized = false) :
    downloadFilesRun s = Except.ok [] ∧ downloadFiles s = [] := by
  constructor <;> simp [downloadFilesRun, downloadFiles, h]

/-- C7 witness: the theorem instantiated at the load-time state. -/
theorem export_before_generate_silent_noop_witness :
    initialState.fileStringsInitialized = false ∧
    downloadFilesRun initialState = Except.ok [] ∧ downloadFiles initialState = [] :=
  ⟨rfl, export_before_generate_silent_noop initialState rfl⟩

/-- If `p` holds of every character of `a`, `takeWhile p` passes through
`a` and continues into the rest. -/
theorem takeWhile_append_of_all (p : Char → Bool) :
    ∀ (a b : JStr), (∀ c ∈ a, p c = true) →
      (a ++ b).takeWhile p = a ++ b.takeWhile p
  | [], b, _ => rfl
  | c :: cs, b, h => by
    have hc : p c = true := h c (List.mem_cons_self c cs)
    simp only [List.cons_append, List.takeWhile_cons, hc, if_true]
    rw [takeWhile_append_of_all p cs b (fun x hx => h x (List.mem_cons_of_mem c hx))]

/-- C8: a generation call overwrites the whole cached artifact pair (the
export result does not depend on the prior state), and export hands off
exactly the scaffold and feature artifacts composed from that request. -/
theorem export_hands_off_latest_generation (d : DomInputs) (s₁ s₂ : GenState) :
    downloadFiles (generateTemplateFile d s₁) = downloadFiles (generateTemplateFile d s₂) ∧
    downloadFiles (generateTemplateFile d s₁) =
      [(scaffoldText (selectedGivens d) (selectedThens d)
          d.featureFilenameSTMT d.locationSTMT d.testSTMT,
        str "test_" ++ d.testFilenameSTMT ++ str ".py"),
       (featureText d.testSTMT (selectedGivens d) (selectedThens d),
        d.featureFilenameSTMT ++ str ".feature")] := by
  constructor <;> simp [downloadFiles, generateTemplateFile, generateFeatureFile]

/-- C10: the exported scaffold filename is the requested scaffold name
with `test_` prefixed and `.py` appended, the exported feature filename is
the requested feature name with `.feature` appended, and neither equals
the caller-supplied name. -/
theorem export_filenames_derived_from_request (d : DomInputs) (s : GenState) :
    downloadFiles (generateTemplateFile d s) =
      [((generateTemplateFile d s).testScaffoldStringSave,
        str "test_" ++ d.testFilenameSTMT ++ str ".py"),
       ((generateTemplateFile d s).featureFileString,
        d.featureFilenameSTMT ++ str ".feature")] ∧
    str "test_" ++ d.testFilenameSTMT ++ str ".py" ≠ d.testFilenameSTMT ∧
    d.featureFilenameSTMT ++ str ".feature" ≠ d.featureFilenameSTMT := by
  refine ⟨by simp [downloadFiles, generateTemplateFile, generateFeatureFile], ?_, ?_⟩
  · intro h
    have hl := congrArg List.length h
    simp only [List.length_append] at hl
    have h5 : (str "test_").length = 5 := by decide
    have h3 : (str ".py").length = 3 := by decide
    omega
  · intro h
    have hl := congrArg List.length h
    simp only [List.length_append] at hl
    have h8 : (str ".feature").length = 8 := by decide
    omega

/-- C9 counterexample: with trigger `x` the first line of the feature text
is `Feature:x`, not `Feature: x` (and the scenario line likewise has no
space after the colon). -/
theorem feature_title_space_counterexample :
    featureText (str "x") [] [] =
      str "Feature:x\n  A description for your feature file\n  Background:\n\n  Scenario:x\n    When x" ∧
    (featureText (str "x") [] []).takeWhile (fun c => c != '\n') ≠ str "Feature: x" := by
  decide

/-- C9 (amended): the feature text's first line is `Feature:` immediately
followed by the trigger text, with no space after the colon; the scenario
line is `  Scenario:` followed by the trigger with no space, and the
`When` line carries the trigger verbatim. -/
theorem feature_title_no_space_after_colon (w : JStr) (gs ts : List JStr)
    (hw : ∀ c ∈ w, c ≠ '\n') :
    (featureText w gs ts).takeWhile (fun c => c != '\n') = str "Feature:" ++ w ∧
    featureText w gs ts =
      str "Feature:" ++ w ++ str "\n" ++
      str "  A description for your feature file\n  Background:\n" ++
      (gs.map (fun g => str "    Given " ++ jsGetStr givenThenToFeatureFileMapping g ++ str "\n")).flatten ++
      (str "\n  Scenario:" ++ w ++ str "\n") ++
      (str "    When " ++ w) ++
      (ts.map (fun t => str "\n    Then " ++ jsGetStr givenThenToFeatureFileMapping t ++ str "\n")).flatten := by
  refine ⟨?_, featureText_decomp w gs ts⟩
  rw [featureText_decomp]
  simp only [List.append_assoc]
  rw [takeWhile_append_of_all _ _ _ (by decide)]
  rw [takeWhile_append_of_all _ _ _ (fun c hc => by simp [hw c hc])]
  have h0 : ∀ X : JStr, List.takeWhile (fun c => c != '\n') (str "\n" ++ X) = [] :=
    fun X => rfl
  rw [h0, List.append_nil]

/-- C9 witness: the amended theorem instantiated at a concrete trigger. -/
theorem feature_title_no_space_after_colon_witness :
    (∀ c ∈ str "do x", c ≠ '\n') ∧
    (featureText (str "do x") [] []).takeWhile (fun c => c != '\n') =
      str "Feature:" ++ str "do x" := by
  have h := feature_title_no_space_after_colon (str "do x") [] [] (by decide)
  exact ⟨by decide, h.1⟩

/-- C1: when every selected id is registered, the feature text carries one
`Given` line per element of the given selection and one `Then` line per
element of the then selection, in selection order with duplicates kept,
and the scaffold text carries the corresponding given-code and then-code
blocks in those same orders. -/
theorem feature_and_scaffold_emit_selections_in_order
    (w fname loc : JStr) (gs ts gPhr tPhr gCode tCode : List JStr)
    (hgPhr : List.Forall₂ (fun g p => mapGet givenThenToFeatureFileMapping g = some p) gs gPhr)
    (htPhr : List.Forall₂ (fun t p => mapGet givenThenToFeatureFileMapping t = some p) ts tPhr)
    (hgCode : List.Forall₂ (fun g c => mapGet givenMapping g = some c) gs gCode)
    (htCode : List.Forall₂ (fun t c => mapGet thenMapping t = some c) ts tCode) :
    featureText w gs ts =
      str "Feature:" ++ w ++ str "\n" ++
      str "  A description for your feature file\n  Background:\n" ++
      (gPhr.map (fun p => str "    Given " ++ p ++ str "\n")).flatten ++
      (str "\n  Scenario:" ++ w ++ str "\n") ++
      (str "    When " ++ w) ++
      (tPhr.map (fun p => str "\n    Then " ++ p ++ str "\n")).flatten ∧
    scaffoldText gs ts fname loc w =
      jsGetStr generalMapping (str "generic") ++
      (gCode.map (fun c => c ++ str "\n")).flatten ++
      (str "@pytest_bdd.scenario('tests/" ++ loc ++ str "/" ++ fname ++
        str ".feature','" ++ w ++ str "',features_base_dir='')\n") ++
      (str "@when('" ++ w ++ str "')\ndef test_" ++
        jsReplaceFirstChar ' ' (str "_") (sanitize w) ++
        str "(page:Page):\n    #your test code here\n    return\n") ++
      (tCode.map (fun c => c ++ str "\n")).flatten := by
  constructor
  · rw [featureText_decomp,
      map_line_forall₂ givenThenToFeatureFileMapping (str "    Given ") (str "\n") hgPhr,
      map_line_forall₂ givenThenToFeatureFileMapping (str "\n    Then ") (str "\n") htPhr]
  · rw [scaffoldText_decomp,
      map_block_forall₂ givenMapping (str "\n") hgCode,
      map_block_forall₂ thenMapping (str "\n") htCode]

/-- C1 witness: the theorem instantiated at a concrete request with a
duplicated given id. -/
theorem feature_and_scaffold_emit_selections_in_order_witness :
    List.Forall₂ (fun g p => mapGet givenThenToFeatureFileMapping g = some p)
      [str "givenLoggedInto", str "givenLoggedInto"]
      [str "logged into OpenMRS O3", str "logged into OpenMRS O3"] ∧
    List.Forall₂ (fun t p => mapGet givenThenToFeatureFileMapping t = some p)
      [str "reportCVSS"] [str "Calculate CVSS score"] ∧
    List.Forall₂ (fun g c => mapGet givenMapping g = some c)
      [str "givenLoggedInto", str "givenLoggedInto"]
      [str "@given(\"logged into OpenMRS O3\")\ndef user_login(page):\n    return login(page)\n",
       str "@given(\"logged into OpenMRS O3\")\ndef user_login(page):\n    return login(page)\n"] ∧
    List.Forall₂ (fun t c => mapGet thenMapping t = some c)
      [str "reportCVSS"]
      [str "@then(\"Calculate CVSS score\")\ndef calculate_cvss_score():\n    return calculateCVSSScore()\n\n"] ∧
    (featureText (str "do stuff") [str "givenLoggedInto", str "givenLoggedInto"] [str "reportCVSS"] =
      str "Feature:" ++ str "do stuff" ++ str "\n" ++
      str "  A description for your feature file\n  Background:\n" ++
      ([str "logged into OpenMRS O3", str "logged into OpenMRS O3"].map
        (fun p => str "    Given " ++ p ++ str "\n")).flatten ++
      (str "\n  Scenario:" ++ str "do stuff" ++ str "\n") ++
      (str "    When " ++ str "do stuff") ++
      ([str "Calculate CVSS score"].map (fun p => str "\n    Then " ++ p ++ str "\n")).flatten ∧
    scaffoldText [str "givenLoggedInto", str "givenLoggedInto"] [str "reportCVSS"]
        (str "feat") (str "xss") (str "do stuff") =
      jsGetStr generalMapping (str "generic") ++
      ([str "@given(\"logged into OpenMRS O3\")\ndef user_login(page):\n    return login(page)\n",
        str "@given(\"logged into OpenMRS O3\")\ndef user_login(page):\n    return login(page)\n"].map
        (fun c => c ++ str "\n")).flatten ++
      (str "@pytest_bdd.scenario('tests/" ++ str "xss" ++ str "/" ++ str "feat" ++
        str ".feature','" ++ str "do stuff" ++ str "',features_base_dir='')\n") ++
      (str "@when('" ++ str "do stuff" ++ str "')\ndef test_" ++
        jsReplaceFirstChar ' ' (str "_") (sanitize (str "do stuff")) ++
        str "(page:Page):\n    #your test code here\n    return\n") ++
      ([str "@then(\"Calculate CVSS score\")\ndef calculate_cvss_score():\n    return calculateCVSSScore()\n\n"].map
        (fun c => c ++ str "\n")).flatten) := by
  have h1 : List.Forall₂ (fun g p => mapGet givenThenToFeatureFileMapping g = some p)
      [str "givenLoggedInto", str "givenLoggedInto"]
      [str "logged into OpenMRS O3", str "logged into OpenMRS O3"] :=
    List.Forall₂.cons (by decide) (List.Forall₂.cons (by decide) List.Forall₂.nil)
  have h2 : List.Forall₂ (fun t p => mapGet givenThenToFeatureFileMapping t = some p)
      [str "reportCVSS"] [str "Calculate CVSS score"] :=
    List.Forall₂.cons (by decide) List.Forall₂.nil
  have h3 : List.Forall₂ (fun g c => mapGet givenMapping g = some c)
      [str "givenLoggedInto", str "givenLoggedInto"]
      [str "@given(\"logged into OpenMRS O3\")\ndef user_login(page):\n    return login(page)\n",
       str "@given(\"logged into OpenMRS O3\")\ndef user_login(page):\n    return login(page)\n"] :=
    List.Forall₂.cons (by decide) (List.Forall₂.cons (by decide) List.Forall₂.nil)
  have h4 : List.Forall₂ (fun t c => mapGet thenMapping t = some c)
      [str "reportCVSS"]
      [str "@then(\"Calculate CVSS score\")\ndef calculate_cvss_score():\n    return calculateCVSSScore()\n\n"] :=
    List.Forall₂.cons (by decide) List.Forall₂.nil
  exact ⟨h1, h2, h3, h4,
    feature_and_scaffold_emit_selections_in_order (str "do stuff") (str "feat") (str "xss")
      _ _ _ _ _ _ h1 h2 h3 h4⟩

/-- C2 counterexample: composing with the unregistered id `noSuchClause`
does not fail; both composers complete normally, rendering the missing
clause as the literal text `undefined`, and both artifacts are produced. -/
theorem unknown_id_produces_artifacts_counterexample :
    featureTextRun (str "w") [str "noSuchClause"] [] ≠
      Except.error GenError.unknownClauseError ∧
    featureText (str "w") [str "noSuchClause"] [] =
      str "Feature:w\n  A description for your feature file\n  Background:\n    Given undefined\n\n  Scenario:w\n    When w" ∧
    scaffoldTextRun [str "noSuchClause"] [] (str "f") (str "loc") (str "w") ≠
      Except.error GenError.unknownClauseError ∧
    scaffoldText [str "noSuchClause"] [] (str "f") (str "loc") (str "w") ≠ [] :=
  ⟨by simp [featureTextRun], by decide, by simp [scaffoldTextRun],
   scaffoldText_ne_nil _ _ _ _ _⟩

/-- C2 (amended): a selected id with no registry entry does not abort
composition; both composers complete normally and produce non-empty
artifacts, with the literal text `undefined` standing in for each missing
phrase or code block. -/
theorem unknown_id_renders_undefined (w fname loc : JStr) (gs ts : List JStr)
    (hg : ∀ g ∈ gs, mapGet givenThenToFeatureFileMapping g = none ∧
      mapGet givenMapping g = none)
    (ht : ∀ t ∈ ts, mapGet givenThenToFeatureFileMapping t = none ∧
      mapGet thenMapping t = none) :
    featureTextRun w gs ts = Except.ok (featureText w gs ts) ∧
    featureText w gs ts =
      str "Feature:" ++ w ++ str "\n" ++
      str "  A description for your feature file\n  Background:\n" ++
      (gs.map (fun _ => str "    Given undefined\n")).flatten ++
      (str "\n  Scenario:" ++ w ++ str "\n") ++
      (str "    When " ++ w) ++
      (ts.map (fun _ => str "\n    Then undefined\n")).flatten ∧
    scaffoldTextRun gs ts fname loc w =
      Except.ok (scaffoldText gs ts fname loc w) ∧
    scaffoldText gs ts fname loc w =
      jsGetStr generalMapping (str "generic") ++
      (gs.map (fun _ => str "undefined\n")).flatten ++
      (str "@pytest_bdd.scenario('tests/" ++ loc ++ str "/" ++ fname ++
        str ".feature','" ++ w ++ str "',features_base_dir='')\n") ++
      (str "@when('" ++ w ++ str "')\ndef test_" ++
        jsReplaceFirstChar ' ' (str "_") (sanitize w) ++
        str "(page:Page):\n    #your test code here\n    return\n") ++
      (ts.map (fun _ => str "undefined\n")).flatten := by
  refine ⟨rfl, ?_, rfl, ?_⟩
  · rw [featureText_decomp]
    have e1 : gs.map (fun g => str "    Given " ++ jsGetStr givenThenToFeatureFileMapping g ++ str "\n") =
        gs.map (fun _ => str "    Given undefined\n") :=
      List.map_congr_left (fun g hgm => by simp [jsGetStr, (hg g hgm).1]; decide)
    have e2 : ts.map (fun t => str "\n    Then " ++ jsGetStr givenThenToFeatureFileMapping t ++ str "\n") =
        ts.map (fun _ => str "\n    Then undefined\n") :=
      List.map_congr_left (fun t htm => by simp [jsGetStr, (ht t htm).1]; decide)
    rw [e1, e2]
  · rw [scaffoldText_decomp]
    have e1 : gs.map (fun g => jsGetStr givenMapping g ++ str "\n") =
        gs.map (fun _ => str "undefined\n") :=
      List.map_congr_left (fun g hgm => by simp [jsGetStr, (hg g hgm).2]; decide)
    have e2 : ts.map (fun t => jsGetStr thenMapping t ++ str "\n") =
        ts.map (fun _ => str "undefined\n") :=
      List.map_congr_left (fun t htm => by simp [jsGetStr, (ht t htm).2]; decide)
    rw [e1, e2]

/-- C2 witness: the amended theorem instantiated at a concrete request
with one unknown given id and one unknown then id. -/
theorem unknown_id_renders_undefined_witness :
    (∀ g ∈ [str "noSuchGiven"], mapGet givenThenToFeatureFileMapping g = none ∧
      mapGet givenMapping g = none) ∧
    (∀ t ∈ [str "noSuchThen"], mapGet givenThenToFeatureFileMapping t = none ∧
      mapGet thenMapping t = none) ∧
    featureText (str "w") [str "noSuchGiven"] [str "noSuchThen"] =
      str "Feature:" ++ str "w" ++ str "\n" ++
      str "  A description for your feature file\n  Background:\n" ++
      ([str "noSuchGiven"].map (fun _ => str "    Given undefined\n")).flatten ++
      (str "\n  Scenario:" ++ str "w" ++ str "\n") ++
      (str "    When " ++ str "w") ++
      ([str "noSuchThen"].map (fun _ => str "\n    Then undefined\n")).flatten := by
  have h := unknown_id_renders_undefined (str "w") (str "f") (str "loc")
    [str "noSuchGiven"] [str "noSuchThen"] (by decide) (by decide)
  exact ⟨by decide, by decide, h.2.1⟩

/-- C3 counterexample: a request with empty trigger text is not rejected;
generation completes normally, caches both artifacts and sets the
initialized flag, with the empty trigger embedded in the feature text. -/
theorem empty_trigger_not_rejected_counterexample :
    generateTemplateFileRun ⟨false, false, false, false, false,
        str "t", str "f", str "loc", str ""⟩ initialState ≠
      Except.error GenError.emptyTriggerError ∧
    (generateTemplateFile ⟨false, false, false, false, false,
        str "t", str "f", str "loc", str ""⟩ initialState).fileStringsInitialized = true ∧
    (generateTemplateFile ⟨false, false, false, false, false,
        str "t", str "f", str "loc", str ""⟩ initialState).featureFileString =
      str "Feature:\n  A description for your feature file\n  Background:\n\n  Scenario:\n    When " := by
  refine ⟨by simp [generateTemplateFileRun], rfl, by decide⟩

/-- C3 (amended): generation performs no emptiness check on the trigger
text; a request with empty trigger completes normally, sets the
initialized flag and caches non-empty feature and scaffold artifacts. -/
theorem empty_trigger_generation_succeeds (d : DomInputs) (s : GenState)
    (_h : d.testSTMT = []) :
    generateTemplateFileRun d s = Except.ok (generateTemplateFile d s) ∧
    (generateTemplateFile d s).fileStringsInitialized = true ∧
    (generateTemplateFile d s).featureFileString ≠ [] ∧
    (generateTemplateFile d s).testScaffoldStringSave ≠ [] := by
  refine ⟨rfl, by simp [generateTemplateFile, generateFeatureFile], ?_, ?_⟩
  · have e : (generateTemplateFile d s).featureFileString =
        featureText d.testSTMT (selectedGivens d) (selectedThens d) := by
      simp [generateTemplateFile, generateFeatureFile]
    rw [e]
    exact featureText_ne_nil _ _ _
  · have e : (generateTemplateFile d s).testScaffoldStringSave =
        scaffoldText (selectedGivens d) (selectedThens d)
          d.featureFilenameSTMT d.locationSTMT d.testSTMT := by
      simp [generateTemplateFile, generateFeatureFile]
    rw [e]
    exact scaffoldText_ne_nil _ _ _ _ _

/-- C3 witness: the amended theorem instantiated at a concrete request
with empty trigger text. -/
theorem empty_trigger_generation_succeeds_witness :
    (DomInputs.testSTMT ⟨false, false, false, false, false,
      str "t", str "f", str "loc", str ""⟩ = []) ∧
    (generateTemplateFile ⟨false, false, false, false, false,
      str "t", str "f", str "loc", str ""⟩ initialState).fileStringsInitialized = true ∧
    (generateTemplateFile ⟨false, false, false, false, false,
      str "t", str "f", str "loc", str ""⟩ initialState).featureFileString ≠ [] :=
  ⟨rfl,
   (empty_trigger_generation_succeeds ⟨false, false, false, false, false,
      str "t", str "f", str "loc", str ""⟩ initialState rfl).2.1,
   (empty_trigger_generation_succeeds ⟨false, false, false, false, false,
      str "t", str "f", str "loc", str ""⟩ initialState rfl).2.2.1⟩

end TemplateGenerator
